import Mathlib

/-!
Verification of the orchestration layer of `main.py` from
codeintel-code-obfuscation-analyzer: a CLI tool that validates a target
directory and then sequentially invokes a subset of four external
static-analysis tools (bandit, flake8, pylint, pyre) as child processes,
failing fast on the first failure.

The embedding models the environment (filesystem directory test and the
outcome of spawning each command) as an explicit `Env`, and the run of the
program as pure functions returning the list of spawn attempts, the printed
output, the log entries and the process exit status.
-/

namespace CodeObfAnalyzer

/-- `VERSION = "1.0.0"` in main.py. -/
def VERSION : String := "1.0.0"

/-- Outcome of attempting to spawn a child process for a command:
either the child runs and exits with a code, stdout and stderr
(as captured by `subprocess.run(..., capture_output=True, text=True)`),
or the spawn itself raises (e.g. `FileNotFoundError` when the executable
is missing). -/
inductive SpawnOutcome where
  | exits (code : Nat) (stdout stderr : String)
  | raises (msg : String)
deriving DecidableEq, Repr

/-- The environment a run interacts with: which path strings are existing
directories (`Path(...).is_dir()`), and what happens when a given command
line is spawned (`subprocess.run`). -/
structure Env where
  is_dir : String → Bool
  spawn : List String → SpawnOutcome

/-- Log levels used by main.py (`logger.info` / `logger.error`). -/
inductive LogLevel where
  | info
  | error
deriving DecidableEq, Repr

/-- A single log record: level and rendered message. -/
structure LogEntry where
  level : LogLevel
  msg : String
deriving DecidableEq, Repr

/-- The exceptions that can propagate out of `analyze_code` / `run_tool`:
`FileNotFoundError` for the missing directory, `RuntimeError` raised by
`run_tool` on a non-zero exit, and any other exception (e.g. an `OSError`
from `subprocess.run` itself), which `run_tool` does not catch. -/
inductive OrchError where
  | fileNotFoundError (msg : String)
  | runtimeError (msg : String)
  | otherError (msg : String)
deriving DecidableEq, Repr

/-- `str(e)` as logged by `main`: the message the exception carries. -/
def OrchError.message : OrchError → String
  | .fileNotFoundError m => m
  | .runtimeError m => m
  | .otherError m => m

/-- Whether spawning `cmd` under `env` yields a zero exit (the only case in
which `subprocess.run(..., check=True)` returns normally). -/
def spawn_ok (env : Env) (cmd : List String) : Bool :=
  match env.spawn cmd with
  | .exits 0 _ _ => true
  | .exits (_ + 1) _ _ => false
  | .raises _ => false

/-- `run_tool(command)` from main.py: logs the command, spawns it and waits.
Returns the spawn attempts made, the log entries produced, and either
success or the propagated exception.  On a non-zero exit the
`CalledProcessError` is caught, stderr is logged at error level and a
`RuntimeError` carrying the joined command line is raised; any other
exception from the spawn propagates uncaught. -/
def run_tool (env : Env) (command : List String) :
    List (List String) × List LogEntry × Except OrchError Unit :=
  let runLog : LogEntry :=
    ⟨.info, "Running command: " ++ String.intercalate " " command⟩
  match env.spawn command with
  | .exits 0 out _ =>
      ([command], [runLog, ⟨.info, "Command output:\n" ++ out⟩], .ok ())
  | .exits (_ + 1) _ err =>
      ([command],
        [runLog, ⟨.error, "Command failed with error:\n" ++ err⟩],
        .error (.runtimeError
          ("Error running command: " ++ String.intercalate " " command)))
  | .raises m => ([command], [runLog], .error (.otherError m))

/-- The four guarded invocations of `analyze_code`, in source order:
each pair is (flag, command line). -/
def selected_commands (directory : String) (b f p y : Bool) :
    List (Bool × List String) :=
  [(b, ["bandit", "-r", directory]),
   (f, ["flake8", directory]),
   (p, ["pylint", directory]),
   (y, ["pyre", "check"])]

/-- The command lines whose flags are set, in order. -/
def enabled_commands (l : List (Bool × List String)) : List (List String) :=
  (l.filter fun x => x.1).map fun x => x.2

/-- The sequence of `if use_<tool>: run_tool(...)` statements in
`analyze_code`: run each enabled command in order; an exception from any
`run_tool` aborts the rest of the sequence. -/
def run_selected (env : Env) :
    List (Bool × List String) →
      List (List String) × List LogEntry × Except OrchError Unit
  | [] => ([], [], .ok ())
  | (flag, cmd) :: rest =>
    if flag then
      match run_tool env cmd with
      | (sp, lg, .error e) => (sp, lg, .error e)
      | (sp, lg, .ok _) =>
        let (sp2, lg2, r2) := run_selected env rest
        (sp ++ sp2, lg ++ lg2, r2)
    else run_selected env rest

/-- `analyze_code(directory, use_bandit, use_flake8, use_pylint, use_pyre)`
from main.py: checks `Path(directory).is_dir()`; if it fails, logs an error
and raises `FileNotFoundError` before any tool is invoked; otherwise runs
the selected tools in the fixed order bandit, flake8, pylint, pyre. -/
def analyze_code (env : Env) (directory : String)
    (use_bandit use_flake8 use_pylint use_pyre : Bool) :
    List (List String) × List LogEntry × Except OrchError Unit :=
  if env.is_dir directory then
    run_selected env
      (selected_commands directory use_bandit use_flake8 use_pylint use_pyre)
  else
    ([], [⟨.error, "Directory does not exist: " ++ directory⟩],
      .error (.fileNotFoundError ("Directory not found: " ++ directory)))

/-- Abstraction of a command line as seen by the parser that
`setup_argparse` builds: the positional tokens, whether each of the four
recognized store-true flags is present, whether `--version` is present, and
whether any unrecognized flag token is present. -/
structure CmdLine where
  positionals : List String
  bandit : Bool
  flake8 : Bool
  pylint : Bool
  pyre : Bool
  version : Bool
  unknown : Bool
deriving DecidableEq, Repr

/-- Result of `parser.parse_args()`: a parsed namespace, an exit with
status 0 after printing the version string, or a usage error
(`parser.error`, exit status 2). -/
inductive ParseOutcome where
  | parsed (directory : String) (bandit flake8 pylint pyre : Bool)
  | versionExit (printed : String)
  | usageError
deriving DecidableEq, Repr

/-- `parser.parse_args()` for the parser built by `setup_argparse`.
The `action="version"` option fires while options are being consumed and
exits 0 immediately; unrecognized arguments and a missing (or extra)
positional are reported only after option consumption, as a usage error
with exit status 2.  Hence `--version` takes precedence over both kinds of
usage error. -/
def parse_args (c : CmdLine) : ParseOutcome :=
  if c.version then
    .versionExit ("main.py " ++ VERSION)
  else if c.unknown then
    .usageError
  else
    match c.positionals with
    | [d] => .parsed d c.bandit c.flake8 c.pylint c.pyre
    | _ => .usageError

/-- Observable result of a whole process run: spawn attempts, lines printed
to stdout, log entries, and the process exit status. -/
structure MainResult where
  spawned : List (List String)
  printed : List String
  log : List LogEntry
  exitCode : Nat
deriving DecidableEq, Repr

/-- `main()` from main.py, together with the interpreter-level behaviour of
`parse_args` (a `SystemExit` from argparse is not an `Exception` and is
raised before the `try` block anyway): on a parsed namespace it calls
`analyze_code`; any `Exception` is caught, logged as
`"An error occurred: ..."` and turned into `sys.exit(1)`; falling off the
end of `main` exits 0. -/
def main (env : Env) (c : CmdLine) : MainResult :=
  match parse_args c with
  | .versionExit s => ⟨[], [s], [], 0⟩
  | .usageError => ⟨[], [], [], 2⟩
  | .parsed d b f p y =>
    match analyze_code env d b f p y with
    | (sp, lg, .ok _) => ⟨sp, [], lg, 0⟩
    | (sp, lg, .error e) =>
        ⟨sp, [], lg ++ [⟨.error, "An error occurred: " ++ e.message⟩], 1⟩

/-- An environment in which every path is a directory and every spawned
command exits 0. -/
def env_all_ok : Env where
  is_dir := fun _ => true
  spawn := fun _ => .exits 0 "" ""

/-- An environment in which every path is a directory, the bandit command
exits 1 and every other command exits 0. -/
def env_bandit_fails : Env where
  is_dir := fun _ => true
  spawn := fun cmd =>
    if cmd.head? = some "bandit" then .exits 1 "" "issue found" else .exits 0 "" ""

/-- An environment in which no path is a directory. -/
def env_no_dir : Env where
  is_dir := fun _ => false
  spawn := fun _ => .exits 0 "" ""

/-- An environment in which every path is a directory and every spawn
attempt raises (e.g. the tool executables are not installed). -/
def env_raises : Env where
  is_dir := fun _ => true
  spawn := fun _ => .raises "No such file or directory"

/-! ### Helper lemmas -/

theorem run_tool_spawned (env : Env) (cmd : List String) :
    (run_tool env cmd).1 = [cmd] := by
  rcases h : env.spawn cmd with ⟨code, out, err⟩ | m
  · cases code <;> simp [run_tool, h]
  · simp [run_tool, h]

theorem run_tool_ok (env : Env) (cmd : List String)
    (h : spawn_ok env cmd = true) :
    (run_tool env cmd).2.2 = Except.ok () := by
  rcases hs : env.spawn cmd with ⟨code, out, err⟩ | m
  · cases code with
    | zero => simp [run_tool, hs]
    | succ n => simp [spawn_ok, hs] at h
  · simp [spawn_ok, hs] at h

theorem run_tool_error (env : Env) (cmd : List String)
    (h : spawn_ok env cmd = false) :
    ∃ e, (run_tool env cmd).2.2 = Except.error e := by
  rcases hs : env.spawn cmd with ⟨code, out, err⟩ | m
  · cases code with
    | zero => simp [spawn_ok, hs] at h
    | succ n =>
      refine ⟨OrchError.runtimeError
        ("Error running command: " ++ String.intercalate " " cmd), ?_⟩
      simp [run_tool, hs]
  · exact ⟨OrchError.otherError m, by simp [run_tool, hs]⟩

theorem enabled_commands_nil : enabled_commands [] = [] := rfl

theorem enabled_commands_cons_true (cmd : List String)
    (l : List (Bool × List String)) :
    enabled_commands ((true, cmd) :: l) = cmd :: enabled_commands l := rfl

theorem enabled_commands_cons_false (cmd : List String)
    (l : List (Bool × List String)) :
    enabled_commands ((false, cmd) :: l) = enabled_commands l := rfl

theorem run_selected_none (env : Env) (l : List (Bool × List String))
    (h : ∀ x ∈ l, x.1 = false) : run_selected env l = ([], [], .ok ()) := by
  induction l with
  | nil => rfl
  | cons hd tl ih =>
    obtain ⟨flag, cmd⟩ := hd
    have hf : flag = false := h (flag, cmd) (List.mem_cons_self _ _)
    subst hf
    simpa [run_selected] using ih (fun x hx => h x (by simp [hx]))

theorem run_selected_skip (env : Env) (cmd : List String)
    (rest : List (Bool × List String)) :
    run_selected env ((false, cmd) :: rest) = run_selected env rest := by
  simp [run_selected]

theorem run_selected_single (env : Env) (cmd : List String)
    (rest : List (Bool × List String)) (hrest : ∀ x ∈ rest, x.1 = false) :
    (run_selected env ((true, cmd) :: rest)).1 = [cmd] := by
  rcases hrt : run_tool env cmd with ⟨sp, lg, r⟩
  have hsp : sp = [cmd] := by
    have h := run_tool_spawned env cmd
    rw [hrt] at h
    exact h
  subst hsp
  cases r with
  | error e => simp [run_selected, hrt]
  | ok u => simp [run_selected, hrt, run_selected_none env rest hrest]

theorem run_selected_ok (env : Env) (l : List (Bool × List String))
    (h : ∀ cmd ∈ enabled_commands l, spawn_ok env cmd = true) :
    (run_selected env l).1 = enabled_commands l ∧
      (run_selected env l).2.2 = Except.ok () := by
  induction l with
  | nil => exact ⟨rfl, rfl⟩
  | cons hd tl ih =>
    obtain ⟨flag, cmd⟩ := hd
    cases flag with
    | false =>
      rw [enabled_commands_cons_false] at h ⊢
      simpa [run_selected] using ih h
    | true =>
      rw [enabled_commands_cons_true] at h ⊢
      have hcmd : spawn_ok env cmd = true := h cmd (List.mem_cons_self _ _)
      have htl := ih (fun x hx => h x (List.mem_cons_of_mem _ hx))
      rcases hrt : run_tool env cmd with ⟨sp, lg, r⟩
      have hsp : sp = [cmd] := by
        have hq := run_tool_spawned env cmd
        rw [hrt] at hq
        exact hq
      have hr : r = Except.ok () := by
        have hq := run_tool_ok env cmd hcmd
        rw [hrt] at hq
        exact hq
      subst hsp hr
      rcases hrs : run_selected env tl with ⟨sp2, lg2, r2⟩
      rw [hrs] at htl
      simp only at htl
      simp [run_selected, hrt, hrs, htl.1, htl.2]

theorem run_selected_fail (env : Env) (l : List (Bool × List String))
    (pre : List (List String)) (c : List String) (post : List (List String))
    (hsel : enabled_commands l = pre ++ c :: post)
    (hpre : ∀ cmd ∈ pre, spawn_ok env cmd = true)
    (hc : spawn_ok env c = false) :
    (run_selected env l).1 = pre ++ [c] ∧
      ∃ e, (run_selected env l).2.2 = Except.error e := by
  induction l generalizing pre with
  | nil => simp [enabled_commands] at hsel
  | cons hd tl ih =>
    obtain ⟨flag, cmd⟩ := hd
    cases flag with
    | false =>
      rw [enabled_commands_cons_false] at hsel
      simpa [run_selected] using ih pre hsel hpre
    | true =>
      rw [enabled_commands_cons_true] at hsel
      cases pre with
      | nil =>
        simp only [List.nil_append] at hsel ⊢
        have hcmd : cmd = c := (List.cons.injEq _ _ _ _).mp hsel |>.1
        subst hcmd
        rcases hrt : run_tool env cmd with ⟨sp, lg, r⟩
        have hsp : sp = [cmd] := by
          have hq := run_tool_spawned env cmd
          rw [hrt] at hq
          exact hq
        obtain ⟨e, he⟩ := run_tool_error env cmd hc
        rw [hrt] at he
        simp only at he
        subst hsp he
        exact ⟨by simp [run_selected, hrt], e, by simp [run_selected, hrt]⟩
      | cons p0 ps =>
        simp only [List.cons_append] at hsel
        have hcmd : cmd = p0 := (List.cons.injEq _ _ _ _).mp hsel |>.1
        have htail : enabled_commands tl = ps ++ c :: post :=
          (List.cons.injEq _ _ _ _).mp hsel |>.2
        subst hcmd
        have hok : spawn_ok env cmd = true := hpre cmd (List.mem_cons_self _ _)
        have htl := ih ps htail (fun x hx => hpre x (List.mem_cons_of_mem _ hx))
        rcases hrt : run_tool env cmd with ⟨sp, lg, r⟩
        have hsp : sp = [cmd] := by
          have hq := run_tool_spawned env cmd
          rw [hrt] at hq
          exact hq
        have hr : r = Except.ok () := by
          have hq := run_tool_ok env cmd hok
          rw [hrt] at hq
          exact hq
        subst hsp hr
        rcases hrs : run_selected env tl with ⟨sp2, lg2, r2⟩
        rw [hrs] at htl
        simp only at htl
        obtain ⟨hsp2, e, he⟩ := htl
        subst hsp2 he
        exact ⟨by simp [run_selected, hrt, hrs], e, by simp [run_selected, hrt, hrs]⟩

theorem run_selected_spawned_sublist (env : Env) (l : List (Bool × List String)) :
    (run_selected env l).1.Sublist (enabled_commands l) := by
  induction l with
  | nil => simp [run_selected, enabled_commands]
  | cons hd tl ih =>
    obtain ⟨flag, cmd⟩ := hd
    cases flag with
    | false =>
      rw [enabled_commands_cons_false]
      simpa [run_selected] using ih
    | true =>
      rw [enabled_commands_cons_true]
      rcases hrt : run_tool env cmd with ⟨sp, lg, r⟩
      have hsp : sp = [cmd] := by
        have hq := run_tool_spawned env cmd
        rw [hrt] at hq
        exact hq
      subst hsp
      cases r with
      | error e => simp [run_selected, hrt]
      | ok u =>
        rcases hrs : run_selected env tl with ⟨sp2, lg2, r2⟩
        rw [hrs] at ih
        simpa [run_selected, hrt, hrs] using List.Sublist.cons₂ cmd ih

theorem enabled_selected_nodup (d : String) (b f p y : Bool) :
    (enabled_commands (selected_commands d b f p y)).Nodup := by
  cases b <;> cases f <;> cases p <;> cases y <;>
    simp [selected_commands, enabled_commands]

theorem nodup_middle_not_mem {α : Type} (pre : List α) (c : α) (post : List α)
    (h : (pre ++ c :: post).Nodup) : ∀ x ∈ post, x ∉ pre ++ [c] := by
  intro x hx hmem
  rw [List.nodup_append] at h
  obtain ⟨hp, hcp, hdisj⟩ := h
  rcases List.mem_append.mp hmem with hxp | hxc
  · exact hdisj hxp (List.mem_cons_of_mem _ hx)
  · have hxc2 : x = c := List.mem_singleton.mp hxc
    subst hxc2
    exact (List.nodup_cons.mp hcp).1 hx

theorem main_spawned_of_parsed (env : Env) (c : CmdLine) (d : String)
    (b f p y : Bool) (hp : parse_args c = .parsed d b f p y) :
    (main env c).spawned = (analyze_code env d b f p y).1 := by
  rcases ha : analyze_code env d b f p y with ⟨sp, lg, r⟩
  cases r <;> simp [main, hp, ha]

theorem parse_args_parsed (d : String) (b f p y : Bool) :
    parse_args ⟨[d], b, f, p, y, false, false⟩ = .parsed d b f p y := rfl

/-! ### Claim theorems -/

/-- Claim C1: for every environment, existing directory and subset of tool
flags, if the enabled command sequence splits as pre ++ c :: post with every
command of pre succeeding and c exiting non-zero (or failing to spawn), the
process exits with status 1, the spawn attempts are exactly pre ++ [c], and
no tool selected later in the fixed sequence bandit, flake8, pylint, pyre is
ever spawned. -/
theorem C1_fail_fast (env : Env) (d : String) (b f p y : Bool)
    (pre : List (List String)) (c : List String) (post : List (List String))
    (hdir : env.is_dir d = true)
    (hsel : enabled_commands (selected_commands d b f p y) = pre ++ c :: post)
    (hpre : ∀ cmd ∈ pre, spawn_ok env cmd = true)
    (hc : spawn_ok env c = false) :
    (main env ⟨[d], b, f, p, y, false, false⟩).exitCode = 1 ∧
    (main env ⟨[d], b, f, p, y, false, false⟩).spawned = pre ++ [c] ∧
    ∀ cmd ∈ post, cmd ∉ (main env ⟨[d], b, f, p, y, false, false⟩).spawned := by
  obtain ⟨hsp, e, he⟩ :=
    run_selected_fail env (selected_commands d b f p y) pre c post hsel hpre hc
  have ha : analyze_code env d b f p y =
      run_selected env (selected_commands d b f p y) := by
    simp [analyze_code, hdir]
  rcases hrs : run_selected env (selected_commands d b f p y) with ⟨sp, lg, r⟩
  rw [hrs] at hsp he ha
  simp only at hsp he
  subst hsp he
  have hm : main env ⟨[d], b, f, p, y, false, false⟩ =
      ⟨pre ++ [c], [], lg ++ [⟨.error, "An error occurred: " ++ e.message⟩], 1⟩ := by
    simp [main, parse_args_parsed, ha]
  rw [hm]
  refine ⟨rfl, rfl, ?_⟩
  have hnd : (pre ++ c :: post).Nodup := by
    rw [← hsel]
    exact enabled_selected_nodup d b f p y
  exact fun cmd hcmd => nodup_middle_not_mem pre c post hnd cmd hcmd

/-- Witness for C1: directory "d", bandit and flake8 selected, bandit
failing; the exit status is 1 and flake8 is never spawned. -/
theorem C1_fail_fast_witness :
    (main env_bandit_fails ⟨["d"], true, true, false, false, false, false⟩).exitCode = 1 ∧
    (main env_bandit_fails ⟨["d"], true, true, false, false, false, false⟩).spawned =
      [] ++ [["bandit", "-r", "d"]] ∧
    ∀ cmd ∈ [["flake8", "d"]],
      cmd ∉ (main env_bandit_fails ⟨["d"], true, true, false, false, false, false⟩).spawned :=
  C1_fail_fast env_bandit_fails "d" true true false false [] ["bandit", "-r", "d"]
    [["flake8", "d"]] rfl (by decide) (by simp) (by decide)

/-- Claim C2: for every path that is not an existing directory and every
combination of the four tool flags, the process exits with status 1 and no
child process is spawned. -/
theorem C2_missing_directory (env : Env) (d : String) (b f p y : Bool)
    (hdir : env.is_dir d = false) :
    (main env ⟨[d], b, f, p, y, false, false⟩).exitCode = 1 ∧
    (main env ⟨[d], b, f, p, y, false, false⟩).spawned = [] := by
  simp [main, parse_args_parsed, analyze_code, hdir]

/-- Witness for C2: a non-directory path with all four flags set exits 1
with no spawns. -/
theorem C2_missing_directory_witness :
    (main env_no_dir ⟨["nope"], true, true, true, true, false, false⟩).exitCode = 1 ∧
    (main env_no_dir ⟨["nope"], true, true, true, true, false, false⟩).spawned = [] :=
  C2_missing_directory env_no_dir "nope" true true true true rfl

/-- Claim C3: for an existing directory d with exactly one flag set, exactly
one child process is spawned, with the fixed command line for that tool:
bandit with [-r, d], flake8 and pylint with [d], and pyre with the fixed
command [pyre, check], in which d does not appear. -/
theorem C3_single_flag_commands (env : Env) (d : String)
    (hdir : env.is_dir d = true) :
    (main env ⟨[d], true, false, false, false, false, false⟩).spawned =
      [["bandit", "-r", d]] ∧
    (main env ⟨[d], false, true, false, false, false, false⟩).spawned =
      [["flake8", d]] ∧
    (main env ⟨[d], false, false, true, false, false, false⟩).spawned =
      [["pylint", d]] ∧
    (main env ⟨[d], false, false, false, true, false, false⟩).spawned =
      [["pyre", "check"]] := by
  refine ⟨?_, ?_, ?_, ?_⟩
  · rw [main_spawned_of_parsed env _ d true false false false
      (parse_args_parsed d true false false false)]
    simp only [analyze_code, hdir, if_true, selected_commands]
    exact run_selected_single env _ _ (by simp)
  · rw [main_spawned_of_parsed env _ d false true false false
      (parse_args_parsed d false true false false)]
    simp only [analyze_code, hdir, if_true, selected_commands]
    rw [run_selected_skip]
    exact run_selected_single env _ _ (by simp)
  · rw [main_spawned_of_parsed env _ d false false true false
      (parse_args_parsed d false false true false)]
    simp only [analyze_code, hdir, if_true, selected_commands]
    rw [run_selected_skip, run_selected_skip]
    exact run_selected_single env _ _ (by simp)
  · rw [main_spawned_of_parsed env _ d false false false true
      (parse_args_parsed d false false false true)]
    simp only [analyze_code, hdir, if_true, selected_commands]
    rw [run_selected_skip, run_selected_skip, run_selected_skip]
    exact run_selected_single env _ _ (by simp)

/-- Witness for C3 on the concrete directory "d". -/
theorem C3_single_flag_commands_witness :
    (main env_all_ok ⟨["d"], true, false, false, false, false, false⟩).spawned =
      [["bandit", "-r", "d"]] ∧
    (main env_all_ok ⟨["d"], false, true, false, false, false, false⟩).spawned =
      [["flake8", "d"]] ∧
    (main env_all_ok ⟨["d"], false, false, true, false, false, false⟩).spawned =
      [["pylint", "d"]] ∧
    (main env_all_ok ⟨["d"], false, false, false, true, false, false⟩).spawned =
      [["pyre", "check"]] :=
  C3_single_flag_commands env_all_ok "d" rfl

/-- Claim C4: with all four flags set on an existing directory, if every
spawned tool exits zero the process exits with status 0 after exactly four
spawns, in the fixed declared order bandit, flake8, pylint, pyre. -/
theorem C4_all_flags_success (env : Env) (d : String)
    (hdir : env.is_dir d = true)
    (hok : ∀ cmd ∈ ([["bandit", "-r", d], ["flake8", d], ["pylint", d],
        ["pyre", "check"]] : List (List String)), spawn_ok env cmd = true) :
    (main env ⟨[d], true, true, true, true, false, false⟩).exitCode = 0 ∧
    (main env ⟨[d], true, true, true, true, false, false⟩).spawned =
      [["bandit", "-r", d], ["flake8", d], ["pylint", d], ["pyre", "check"]] := by
  have hen : enabled_commands (selected_commands d true true true true) =
      [["bandit", "-r", d], ["flake8", d], ["pylint", d], ["pyre", "check"]] := rfl
  have h := run_selected_ok env (selected_commands d true true true true)
    (by rw [hen]; exact hok)
  have ha : analyze_code env d true true true true =
      run_selected env (selected_commands d true true true true) := by
    simp [analyze_code, hdir]
  rcases hrs : run_selected env (selected_commands d true true true true)
    with ⟨sp, lg, r⟩
  rw [hrs] at h ha
  simp only at h
  obtain ⟨hsp, hr⟩ := h
  rw [hen] at hsp
  subst hsp hr
  exact ⟨by simp [main, parse_args_parsed, ha], by simp [main, parse_args_parsed, ha]⟩

/-- Witness for C4: all four tools succeed on directory "d". -/
theorem C4_all_flags_success_witness :
    (main env_all_ok ⟨["d"], true, true, true, true, false, false⟩).exitCode = 0 ∧
    (main env_all_ok ⟨["d"], true, true, true, true, false, false⟩).spawned =
      [["bandit", "-r", "d"], ["flake8", "d"], ["pylint", "d"], ["pyre", "check"]] :=
  C4_all_flags_success env_all_ok "d" rfl (by decide)

/-- Claim C5: for every existing directory with none of the four tool flags
set, the process exits with status 0 and spawns no child process. -/
theorem C5_no_flags (env : Env) (d : String) (hdir : env.is_dir d = true) :
    (main env ⟨[d], false, false, false, false, false, false⟩).exitCode = 0 ∧
    (main env ⟨[d], false, false, false, false, false, false⟩).spawned = [] := by
  have ha : analyze_code env d false false false false = ([], [], .ok ()) := by
    simp only [analyze_code, hdir, if_true]
    exact run_selected_none env _ (by simp [selected_commands])
  simp [main, parse_args_parsed, ha]

/-- Witness for C5 on the concrete directory "d". -/
theorem C5_no_flags_witness :
    (main env_all_ok ⟨["d"], false, false, false, false, false, false⟩).exitCode = 0 ∧
    (main env_all_ok ⟨["d"], false, false, false, false, false, false⟩).spawned = [] :=
  C5_no_flags env_all_ok "d" rfl

/-- Claim C6: whenever --version is supplied, the process prints the fixed
version string and exits with status 0 without spawning any child process,
for every combination of the other flags and regardless of the directory
argument. -/
theorem C6_version_exits_zero (env : Env) (c : CmdLine)
    (hv : c.version = true) :
    (main env c).exitCode = 0 ∧ (main env c).spawned = [] ∧
    (main env c).printed = ["main.py " ++ VERSION] := by
  simp [main, parse_args, hv]

/-- Witness for C6: --version with every other flag set, an unrecognized
flag present, no positional argument and a hostile filesystem still exits 0
with no spawns. -/
theorem C6_version_exits_zero_witness :
    (main env_no_dir ⟨[], true, true, true, true, true, true⟩).exitCode = 0 ∧
    (main env_no_dir ⟨[], true, true, true, true, true, true⟩).spawned = [] ∧
    (main env_no_dir ⟨[], true, true, true, true, true, true⟩).printed =
      ["main.py " ++ VERSION] :=
  C6_version_exits_zero env_no_dir ⟨[], true, true, true, true, true, true⟩ rfl

/-- Claim C7: every handled failure of the orchestration — a missing
directory, a tool invocation failure, or any other exception propagating out
of analyze_code — makes the process exit with status exactly 1 and logs the
error. -/
theorem C7_handled_failure_exits_one (env : Env) (c : CmdLine) (d : String)
    (b f p y : Bool) (e : OrchError)
    (hp : parse_args c = .parsed d b f p y)
    (he : (analyze_code env d b f p y).2.2 = Except.error e) :
    (main env c).exitCode = 1 ∧
    (⟨.error, "An error occurred: " ++ e.message⟩ : LogEntry) ∈ (main env c).log := by
  rcases ha : analyze_code env d b f p y with ⟨sp, lg, r⟩
  rw [ha] at he
  simp only at he
  subst he
  simp [main, hp, ha]

/-- Witness for C7: the missing-directory failure exits 1 and is logged. -/
theorem C7_handled_failure_exits_one_witness :
    (main env_no_dir ⟨["d"], true, false, false, false, false, false⟩).exitCode = 1 ∧
    (⟨.error, "An error occurred: " ++
        (OrchError.fileNotFoundError "Directory not found: d").message⟩ : LogEntry) ∈
      (main env_no_dir ⟨["d"], true, false, false, false, false, false⟩).log :=
  C7_handled_failure_exits_one env_no_dir ⟨["d"], true, false, false, false, false, false⟩
    "d" true false false false (.fileNotFoundError "Directory not found: d")
    rfl rfl

/-- Claim C8 counterexample: a command line carrying an unrecognized flag
together with --version is not rejected with a usage error; the version
action fires first and the process exits with status 0, not non-zero. -/
theorem C8_unknown_flag_with_version_exits_zero :
    (main env_all_ok ⟨["d"], false, false, false, false, true, true⟩).exitCode = 0 := rfl

/-- Claim C8 (amended): for every command line containing an unknown flag
without --version, and for every command line missing the required
positional directory argument without --version, argument parsing produces
a usage error and the process exits with a non-zero status, spawning no
child process. -/
theorem C8_usage_error_nonzero (env : Env) (c : CmdLine)
    (hv : c.version = false)
    (h : c.unknown = true ∨ c.positionals = []) :
    (main env c).exitCode ≠ 0 ∧ (main env c).spawned = [] := by
  rcases h with hu | hpos
  · simp [main, parse_args, hv, hu]
  · cases hu : c.unknown with
    | true => simp [main, parse_args, hv, hu]
    | false => simp [main, parse_args, hv, hu, hpos]

/-- Witness for the amended C8: an unrecognized flag without --version
exits non-zero with no spawns. -/
theorem C8_usage_error_nonzero_witness :
    (main env_all_ok ⟨["d"], false, false, false, false, false, true⟩).exitCode ≠ 0 ∧
    (main env_all_ok ⟨["d"], false, false, false, false, false, true⟩).spawned = [] :=
  C8_usage_error_nonzero env_all_ok ⟨["d"], false, false, false, false, false, true⟩
    rfl (Or.inl rfl)

/-- Claim C9: no invocation is ever retried: in every run the list of spawn
attempts has no duplicate command, so each selected tool's command is
spawned at most once, including when an invocation fails. -/
theorem C9_no_retries (env : Env) (c : CmdLine) :
    ((main env c).spawned).Nodup := by
  cases hp : parse_args c with
  | versionExit s => simp [main, hp]
  | usageError => simp [main, hp]
  | parsed d b f p y =>
    rw [main_spawned_of_parsed env c d b f p y hp]
    by_cases hd : env.is_dir d = true
    · have ha : (analyze_code env d b f p y).1 =
          (run_selected env (selected_commands d b f p y)).1 := by
        simp [analyze_code, hd]
      rw [ha]
      exact List.Nodup.sublist (run_selected_spawned_sublist env _)
        (enabled_selected_nodup d b f p y)
    · simp [analyze_code, hd]

/-- Claim C10: every command line rejected by the argument parser exits with
status exactly 2 — not the status 1 used for handled orchestration
failures — and spawns nothing. -/
theorem C10_usage_error_exits_two (env : Env) (c : CmdLine)
    (h : parse_args c = .usageError) :
    (main env c).exitCode = 2 ∧ (main env c).spawned = [] := by
  simp [main, h]

/-- Witness for C10: an unrecognized flag without --version is rejected and
exits with status 2. -/
theorem C10_usage_error_exits_two_witness :
    (main env_all_ok ⟨["nope"], false, false, false, false, false, true⟩).exitCode = 2 ∧
    (main env_all_ok ⟨["nope"], false, false, false, false, false, true⟩).spawned = [] :=
  C10_usage_error_exits_two env_all_ok ⟨["nope"], false, false, false, false, false, true⟩ rfl

end CodeObfAnalyzer
